import Mathlib

/-!
Shallow embedding of the emulated camera sensor capture pipeline
(`system/camera/fake-pipeline2/Sensor.cpp`) and verification of its
specified properties.

The embedding models:
* the fixed sensor constants (`kMaxRawValue`, `kBlackLevel`,
  `kSaturationElectrons`, `kBaseGainFactor`, `kRowReadoutTime`,
  `kMinVerticalBlank`, ...);
* the per-pixel gain/saturation arithmetic of `Sensor::threadLoop`'s
  render stage (float arithmetic is embedded into `ℚ`; the `uint16_t`
  conversion is truncation followed by reduction mod 2^16);
* one iteration of `Sensor::threadLoop` as a state-transition function
  emitting an event trace (vsync signal, row renders, readout publishes);
* the single-slot readout handoff (`mCapturedBuffer`/`mCaptureTime`) and
  the `waitForVSync` / `waitForNewFrame` wait conventions;
* the wall-clock pacing stage;
* `sqrtf_approx`, the IEEE-754 bit-pattern square-root approximation,
  embedded as exact arithmetic on (exponent, mantissa) pairs of positive
  normal single-precision floats.
-/

namespace Sensor

/-! ### Fixed sensor constants, from the top of Sensor.cpp -/

/-- Sensor resolution: `kResolution = {640, 480}`. -/
def kResolutionX : ℕ := 640

/-- Sensor row count: `kResolution[1] = 480`. -/
def kResolutionY : ℕ := 480

/-- Lower bound of `kFrameDurationRange`, in nanoseconds. -/
def kFrameDurationMin : ℤ := 33331760

/-- `kMinVerticalBlank`, in nanoseconds. -/
def kMinVerticalBlank : ℤ := 10000

/-- `kMaxRawValue = 4000`. -/
def kMaxRawValue : ℕ := 4000

/-- `kBlackLevel = 1000`. -/
def kBlackLevel : ℕ := 1000

/-- `kSaturationElectrons = 2000`. -/
def kSaturationElectrons : ℕ := 2000

/-- `kBaseGainFactor = (float)kMaxRawValue / kSaturationElectrons = 2.0`
(exact in single precision). -/
def kBaseGainFactor : ℚ := (kMaxRawValue : ℚ) / (kSaturationElectrons : ℚ)

/-- `kRowReadoutTime = kFrameDurationRange[0] / kResolution[1]`
(integer `nsecs_t` division: 33331760 / 480 = 69441). -/
def kRowReadoutTime : ℤ := kFrameDurationMin / (kResolutionY : ℤ)

/-- The five entries of `kAvailableSensitivities`. -/
def kAvailableSensitivities : List ℕ := [100, 200, 400, 800, 1600]

/-- `kDefaultSensitivity = 100`. -/
def kDefaultSensitivity : ℕ := 100

/-! ### Render-stage pixel arithmetic (threadLoop stage 2)

`float totalGain = gain/100.0 * kBaseGainFactor;` followed per pixel by

```
electronCount = (electronCount < kSaturationElectrons) ?
        electronCount : kSaturationElectrons;
uint16_t rawCount = electronCount * totalGain;
rawCount = (rawCount < kMaxRawValue) ? rawCount : kMaxRawValue;
...
rawCount += kBlackLevel;
rawCount += noiseStddev * noiseSample;   -- noise term, added last
```

Float products are embedded as exact rationals (for every gain used in the
claims the float computation is exact), and the float-to-`uint16_t`
conversion as truncation to an integer followed by reduction mod 2^16,
the behaviour of the emulator's targets. -/

/-- `totalGain = gain/100.0 * kBaseGainFactor`. -/
def totalGain (gain : ℕ) : ℚ := (gain : ℚ) / 100 * kBaseGainFactor

/-- Electron-count saturation clamp:
`(electronCount < kSaturationElectrons) ? electronCount : kSaturationElectrons`. -/
def clampElectrons (ec : ℕ) : ℕ :=
  if ec < kSaturationElectrons then ec else kSaturationElectrons

/-- `uint16_t rawCount = electronCount * totalGain;` — the float product
truncated and reduced mod 2^16. -/
def rawCount0 (ec gain : ℕ) : ℕ :=
  (Int.toNat ⌊(clampElectrons ec : ℚ) * totalGain gain⌋) % 65536

/-- A/D saturation clamp: `(rawCount < kMaxRawValue) ? rawCount : kMaxRawValue`. -/
def clampRaw (r : ℕ) : ℕ :=
  if r < kMaxRawValue then r else kMaxRawValue

/-- The value of `rawCount` right before the noise term is added
(i.e. after the gain multiply, the A/D clamp, and `rawCount += kBlackLevel`). -/
def preNoiseRaw (ec gain : ℕ) : ℕ :=
  (clampRaw (rawCount0 ec gain) + kBlackLevel) % 65536

/-! ### Control surface (mControlMutex-guarded state and its setters) -/

/-- The control parameters guarded by `mControlMutex`: `mExposureTime`,
`mFrameDuration`, `mGainFactor`, `mNextBuffer` (a buffer pointer, `none` for
`NULL`), `mNextStride`.  Buffers are abstracted as natural-number
identifiers. -/
structure ControlState where
  exposureTime : ℤ
  frameDuration : ℤ
  gainFactor : ℕ
  nextBuffer : Option ℕ
  nextStride : ℕ
deriving DecidableEq, Repr

/-- `Sensor::setExposureTime`. -/
def setExposureTime (c : ControlState) (ns : ℤ) : ControlState :=
  { c with exposureTime := ns }

/-- `Sensor::setFrameDuration`. -/
def setFrameDuration (c : ControlState) (ns : ℤ) : ControlState :=
  { c with frameDuration := ns }

/-- `Sensor::setSensitivity` — stores the supplied gain unconditionally,
with no validation against `kAvailableSensitivities`. -/
def setSensitivity (c : ControlState) (gain : ℕ) : ControlState :=
  { c with gainFactor := gain }

/-- `Sensor::setDestinationBuffer`. -/
def setDestinationBuffer (c : ControlState) (buffer : ℕ) (stride : ℕ) : ControlState :=
  { c with nextBuffer := some buffer, nextStride := stride }

/-- The `Sensor` constructor's initial control state:
`mExposureTime = kFrameDurationRange[0] - kMinVerticalBlank`,
`mFrameDuration = kFrameDurationRange[0]`, `mGainFactor =
kDefaultSensitivity`, `mNextBuffer = NULL`. -/
def initialControl : ControlState :=
  { exposureTime := kFrameDurationMin - kMinVerticalBlank,
    frameDuration := kFrameDurationMin,
    gainFactor := kDefaultSensitivity,
    nextBuffer := none,
    nextStride := 0 }

/-! ### The capture loop as a state-transition system

One iteration of `Sensor::threadLoop` is modelled as a function from the
sensor state and the iteration's environment (wall-clock readings) to the
successor state plus a trace of observable events: the VSync signal, the
rows rendered into the destination buffer, and the publish of a completed
frame into the readout handoff slot. -/

/-- Events observable during one `threadLoop` iteration. -/
inductive Event where
  | vsync : Event
  | renderRow (buffer : ℕ) (y : ℕ) : Event
  | publish (buffer : ℕ) (t : ℤ) : Event
deriving DecidableEq, Repr

/-- The sensor state carried across `threadLoop` iterations: the control
surface, `mGotVSync`, `mStartupTime`, the capture pipeline registers
`mNextCaptureTime` / `mNextCapturedBuffer`, and the readout handoff slot
`mCapturedBuffer` / `mCaptureTime`. -/
structure SensorState where
  control : ControlState
  gotVSync : Bool
  startupTime : ℤ
  nextCaptureTime : ℤ
  nextCapturedBuffer : Option ℕ
  capturedBuffer : Option ℕ
  captureTime : ℤ
deriving DecidableEq, Repr

/-- Environment inputs of one iteration: the wall-clock time read at the
start of the iteration (`systemTime()` at the top of stage 3), and for each
row the outcome of the readout-deadline comparison
`systemTime() >= frameReadoutEndRealTime` made at the periodic check after
that row. -/
structure IterInput where
  startRealTime : ℤ
  readoutReady : ℕ → Bool

/-- `Sensor::readyToRun`: record the startup time and clear the capture
pipeline registers (`startUp` also clears the handoff slot). -/
def readyToRun (c : ControlState) (now : ℤ) : SensorState :=
  { control := c, gotVSync := false, startupTime := now,
    nextCaptureTime := 0, nextCapturedBuffer := none,
    capturedBuffer := none, captureTime := 0 }

/-- The render loop over the rows of the frame (stage 2 inner loop):
renders each row into the target buffer and, at the periodic check rows
(`(y & 63) == 0`), publishes the pending previous frame once the readout
deadline has passed.  Returns the events emitted and whatever pending
readout is left unpublished. -/
def renderRows (target : ℕ) (ready : ℕ → Bool) :
    List ℕ → Option (ℕ × ℤ) → List Event × Option (ℕ × ℤ)
  | [], pending => ([], pending)
  | y :: rest, pending =>
      match pending with
      | some (b, t) =>
          if y % 64 == 0 && ready y then
            let out := renderRows target ready rest none
            (Event.renderRow target y :: Event.publish b t :: out.1, out.2)
          else
            let out := renderRows target ready rest (some (b, t))
            (Event.renderRow target y :: out.1, out.2)
      | none =>
          let out := renderRows target ready rest none
          (Event.renderRow target y :: out.1, out.2)

/-- The publish payloads appearing in an event trace, in order. -/
def publishesOf (evs : List Event) : List (ℕ × ℤ) :=
  evs.filterMap fun e =>
    match e with
    | Event.publish b t => some (b, t)
    | _ => none

/-- The publish payloads a pending readout should produce: one publish for
a pending frame, none otherwise. -/
def optPub : Option (ℕ × ℤ) → List (ℕ × ℤ)
  | some p => [p]
  | none => []

/-- One iteration of `Sensor::threadLoop`.

* Stage 1 latches the control parameters, clears `mNextBuffer` (a buffer is
  consumed at most once) and signals VSync.
* Stage 3 moves the frame captured last iteration
  (`mNextCapturedBuffer`/`mNextCaptureTime`) into the pending readout, and
  computes the new simulated capture time
  `systemTime() - mStartupTime + kRowReadoutTime + kMinVerticalBlank`.
* Stage 2 stores the new capture time and the newly latched buffer into the
  pipeline registers and, if a buffer was latched, renders the frame row by
  row; the pending readout is published into the handoff slot mid-render
  once the readout deadline passes, or unconditionally after the render
  loop (also when no buffer was latched and no rendering happened).

The handoff slot after the iteration holds the last published payload, or
its previous content when nothing was published. -/
def threadLoopStep (s : SensorState) (inp : IterInput) : SensorState × List Event :=
  let nextBuffer := s.control.nextBuffer
  let control' := { s.control with nextBuffer := none }
  let pending : Option (ℕ × ℤ) :=
    match s.nextCapturedBuffer with
    | some b => some (b, s.nextCaptureTime)
    | none => none
  let simulatedTime := inp.startRealTime - s.startupTime + kRowReadoutTime + kMinVerticalBlank
  let renderOut : List Event × Option (ℕ × ℤ) :=
    match nextBuffer with
    | some target => renderRows target inp.readoutReady (List.range kResolutionY) pending
    | none => ([], pending)
  let bodyEvents : List Event :=
    match renderOut.2 with
    | some (b, t) => renderOut.1 ++ [Event.publish b t]
    | none => renderOut.1
  let events := Event.vsync :: bodyEvents
  let slot : Option ℕ × ℤ :=
    (publishesOf events).getLast?.elim (s.capturedBuffer, s.captureTime)
      (fun p => (some p.1, p.2))
  ({ control := control',
     gotVSync := true,
     startupTime := s.startupTime,
     nextCaptureTime := simulatedTime,
     nextCapturedBuffer := nextBuffer,
     capturedBuffer := slot.1,
     captureTime := slot.2 }, events)

/-! ### Readout handoff slot and the two wait operations -/

/-- Status of a condition-variable `waitRelative` call. -/
inductive WaitStatus where
  | ok : WaitStatus
  | timedOut : WaitStatus
  | err (code : ℤ) : WaitStatus
deriving DecidableEq, Repr

/-- The readout handoff publish (`mCapturedBuffer = capturedBuffer;
mCaptureTime = captureTime; mReadoutComplete.signal();`): stores the
finished buffer and its capture time into the single slot, unconditionally
overwriting any unconsumed frame. -/
def publishFrame (_slot : Option (ℕ × ℤ)) (b : ℕ) (t : ℤ) : Option (ℕ × ℤ) :=
  some (b, t)

/-- `Sensor::waitForNewFrame`: given the slot state on entry, the status of
the inner `waitRelative` (consulted only when the slot is empty on entry),
and the slot state once the wait returns (the capture loop may publish
during the wait), returns the triple (boolean result, the `captureTime`
out-parameter, slot state after the call).  A successful call consumes the
slot by clearing it. -/
def waitForNewFrame (slot : Option (ℕ × ℤ)) (res : WaitStatus)
    (slotAfterWait : Option (ℕ × ℤ)) : Bool × Option ℤ × Option (ℕ × ℤ) :=
  match slot with
  | some (_, t) => (true, some t, none)
  | none =>
      match res with
      | WaitStatus.timedOut => (false, none, slotAfterWait)
      | WaitStatus.ok =>
          match slotAfterWait with
          | some (_, t) => (true, some t, none)
          | none => (false, none, none)
      | WaitStatus.err _ => (false, none, slotAfterWait)

/-- `Sensor::waitForVSync`: `mGotVSync` is cleared on entry; when the inner
wait reports an error other than a timeout the call returns `false`,
otherwise it returns the value of `mGotVSync` after the wait (true exactly
when the capture loop signalled VSync meanwhile). -/
def waitForVSync (res : WaitStatus) (gotVSyncAfterWait : Bool) : Bool :=
  match res with
  | WaitStatus.err _ => false
  | _ => gotVSyncAfterWait

/-! ### Pacing stage -/

/-- `timeAccuracy` — 2 ms of imprecision is ok. -/
def kTimeAccuracy : ℤ := 2000000

/-- The pacing stage: the length of the `nanosleep` performed at the end of
an iteration, given the wall-clock time when the work finished and the
frame-end deadline (`startRealTime + frameDuration`).  Zero when no sleep
occurs. -/
def pacingSleep (workDoneRealTime frameEndRealTime : ℤ) : ℤ :=
  if workDoneRealTime < frameEndRealTime - kTimeAccuracy
  then frameEndRealTime - workDoneRealTime else 0

/-! ### sqrtf_approx: the IEEE-754 bit-pattern square-root approximation

```
float sqrtf_approx(float r) {
    const int32_t modifier = 0x1FBB4000;
    int32_t r_i = *(int32_t*)(&r);
    r_i = (r_i >> 1) + modifier;
    return *(float*)(&r_i);
}
```

A positive normal single-precision float is the pair of its biased
exponent field `E` (1 ≤ E ≤ 254) and mantissa field `M < 2^23`, with bit
pattern `E * 2^23 + M` and exact value `2^(E-127) * (1 + M/2^23)`.  For a
positive float the sign bit is 0, so the `int32` arithmetic right shift is
division by two, and `r_i/2 + 0x1FBB4000 < 2^31` never overflows. -/

/-- Bit pattern of the positive normal float with biased exponent `E` and
mantissa `M`. -/
def floatBits (E M : ℕ) : ℕ := E * 2 ^ 23 + M

/-- Exact value of that float as a rational:
`2^(E-127) * (1 + M/2^23) = 2^E * (2^23 + M) / 2^150`. -/
def floatValQ (E M : ℕ) : ℚ := 2 ^ E * (2 ^ 23 + (M : ℚ)) / 2 ^ 150

/-- The bit-pattern manipulation of `sqrtf_approx`:
`r_i = (r_i >> 1) + 0x1FBB4000`. -/
def sqrtBits (b : ℕ) : ℕ := b / 2 + 0x1FBB4000

/-- Biased exponent field of a bit pattern. -/
def bitsExp (b : ℕ) : ℕ := b / 2 ^ 23

/-- Mantissa field of a bit pattern. -/
def bitsMant (b : ℕ) : ℕ := b % 2 ^ 23

/-- The value returned by `sqrtf_approx` on the positive normal float
`(E, M)`: the adjusted bit pattern reinterpreted as a float. -/
def sqrtf_approx (E M : ℕ) : ℚ :=
  floatValQ (bitsExp (sqrtBits (floatBits E M))) (bitsMant (sqrtBits (floatBits E M)))

end Sensor

namespace Sensor

/-! ### Sanity examples for the pixel arithmetic -/

example : totalGain 200 = 4 := by norm_num [totalGain, kBaseGainFactor, kMaxRawValue, kSaturationElectrons]
example : rawCount0 1500 200 = 6000 := by
  norm_num [rawCount0, clampElectrons, totalGain, kBaseGainFactor, kMaxRawValue, kSaturationElectrons]
  decide
example : preNoiseRaw 1500 200 = 5000 := by
  norm_num [preNoiseRaw, clampRaw, rawCount0, clampElectrons, totalGain, kBaseGainFactor,
    kMaxRawValue, kSaturationElectrons, kBlackLevel]
  decide
example : preNoiseRaw 1000000 100 = 5000 := by
  norm_num [preNoiseRaw, clampRaw, rawCount0, clampElectrons, totalGain, kBaseGainFactor,
    kMaxRawValue, kSaturationElectrons, kBlackLevel]
  decide
example : rawCount0 2000 3300 = 928 := by
  norm_num [rawCount0, clampElectrons, totalGain, kBaseGainFactor,
    kMaxRawValue, kSaturationElectrons]
  decide

/-! ### Structural lemmas about the render loop and a loop iteration -/

theorem renderRows_no_vsync (target : ℕ) (ready : ℕ → Bool) :
    ∀ (rows : List ℕ) (pending : Option (ℕ × ℤ)),
      Event.vsync ∉ (renderRows target ready rows pending).1 := by
  intro rows
  induction rows with
  | nil => intro pending; simp [renderRows]
  | cons y rest ih =>
      intro pending
      rcases pending with _ | ⟨b, t⟩
      · simp only [renderRows, List.mem_cons]
        rintro (h | h)
        · exact Event.noConfusion h
        · exact ih none h
      · rcases hc : (y % 64 == 0 && ready y) with _ | _
        · simp only [renderRows, hc, Bool.false_eq_true, if_false, List.mem_cons]
          rintro (h | h)
          · exact Event.noConfusion h
          · exact ih (some (b, t)) h
        · simp only [renderRows, hc, if_true, List.mem_cons]
          rintro (h | h | h)
          · exact Event.noConfusion h
          · exact Event.noConfusion h
          · exact ih none h

theorem renderRows_publishes (target : ℕ) (ready : ℕ → Bool) :
    ∀ (rows : List ℕ) (pending : Option (ℕ × ℤ)),
      publishesOf (renderRows target ready rows pending).1
          ++ optPub (renderRows target ready rows pending).2
        = optPub pending := by
  intro rows
  induction rows with
  | nil => intro pending; simp [renderRows, publishesOf]
  | cons y rest ih =>
      intro pending
      rcases pending with _ | ⟨b, t⟩
      · simpa [renderRows, publishesOf] using ih none
      · rcases hc : (y % 64 == 0 && ready y) with _ | _
        · simpa [renderRows, hc, publishesOf] using ih (some (b, t))
        · simpa [renderRows, hc, publishesOf, optPub] using ih none

theorem renderRows_covers (target : ℕ) (ready : ℕ → Bool) :
    ∀ (rows : List ℕ) (pending : Option (ℕ × ℤ)) (y : ℕ), y ∈ rows →
      Event.renderRow target y ∈ (renderRows target ready rows pending).1 := by
  intro rows
  induction rows with
  | nil => intro pending y hy; simp at hy
  | cons z rest ih =>
      intro pending y hy
      rcases pending with _ | ⟨b, t⟩
      · rcases List.mem_cons.1 hy with h | h
        · subst h; simp [renderRows]
        · simp only [renderRows, List.mem_cons]
          exact Or.inr (ih none y h)
      · rcases hc : (z % 64 == 0 && ready z) with _ | _
        · rcases List.mem_cons.1 hy with h | h
          · subst h; simp [renderRows, hc]
          · simp only [renderRows, hc, Bool.false_eq_true, if_false, List.mem_cons]
            exact Or.inr (ih (some (b, t)) y h)
        · rcases List.mem_cons.1 hy with h | h
          · subst h; simp [renderRows, hc]
          · simp only [renderRows, hc, if_true, List.mem_cons]
            exact Or.inr (Or.inr (ih none y h))

theorem renderRows_target (target : ℕ) (ready : ℕ → Bool) :
    ∀ (rows : List ℕ) (pending : Option (ℕ × ℤ)) (b y : ℕ),
      Event.renderRow b y ∈ (renderRows target ready rows pending).1 → b = target := by
  intro rows
  induction rows with
  | nil => intro pending b y h; simp [renderRows] at h
  | cons z rest ih =>
      intro pending b y h
      rcases pending with _ | ⟨p, t⟩
      · simp only [renderRows, List.mem_cons] at h
        rcases h with h | h
        · injection h with h1 h2
        · exact ih none b y h
      · rcases hc : (z % 64 == 0 && ready z) with _ | _
        · simp only [renderRows, hc, Bool.false_eq_true, if_false, List.mem_cons] at h
          rcases h with h | h
          · injection h with h1 h2
          · exact ih (some (p, t)) b y h
        · simp only [renderRows, hc, if_true, List.mem_cons] at h
          rcases h with h | h | h
          · injection h with h1 h2
          · exact Event.noConfusion h
          · exact ih none b y h

theorem publish_mem_publishesOf {b : ℕ} {t : ℤ} {evs : List Event}
    (h : Event.publish b t ∈ evs) : (b, t) ∈ publishesOf evs := by
  unfold publishesOf
  exact List.mem_filterMap.2 ⟨Event.publish b t, h, rfl⟩

theorem publishesOf_vsync_cons (l : List Event) :
    publishesOf (Event.vsync :: l) = publishesOf l := rfl

theorem publishesOf_renderRow_cons (b y : ℕ) (l : List Event) :
    publishesOf (Event.renderRow b y :: l) = publishesOf l := rfl

theorem publishesOf_publish_cons (b : ℕ) (t : ℤ) (l : List Event) :
    publishesOf (Event.publish b t :: l) = (b, t) :: publishesOf l := rfl

theorem publishesOf_append (l1 l2 : List Event) :
    publishesOf (l1 ++ l2) = publishesOf l1 ++ publishesOf l2 :=
  List.filterMap_append l1 l2 _

theorem threadLoopStep_nextCaptureTime (s : SensorState) (inp : IterInput) :
    (threadLoopStep s inp).1.nextCaptureTime
      = inp.startRealTime - s.startupTime + kRowReadoutTime + kMinVerticalBlank := rfl

theorem threadLoopStep_startupTime (s : SensorState) (inp : IterInput) :
    (threadLoopStep s inp).1.startupTime = s.startupTime := rfl

theorem threadLoopStep_nextCapturedBuffer (s : SensorState) (inp : IterInput) :
    (threadLoopStep s inp).1.nextCapturedBuffer = s.control.nextBuffer := rfl

theorem threadLoopStep_publishes (s : SensorState) (inp : IterInput) :
    publishesOf (threadLoopStep s inp).2
      = optPub (s.nextCapturedBuffer.map fun b => (b, s.nextCaptureTime)) := by
  unfold threadLoopStep
  cases hbuf : s.control.nextBuffer with
  | none =>
      cases hpend : s.nextCapturedBuffer with
      | none => simp [publishesOf, optPub]
      | some b => simp [publishesOf_vsync_cons, publishesOf_publish_cons, publishesOf, optPub]
  | some target =>
      cases hpend : s.nextCapturedBuffer with
      | none =>
          dsimp only
          have h := renderRows_publishes target inp.readoutReady
            (List.range kResolutionY) none
          cases hout : (renderRows target inp.readoutReady (List.range kResolutionY) none) with
          | mk evs pend =>
              rw [hout] at h
              cases pend with
              | none =>
                  simp only [optPub, List.append_nil] at h
                  simpa [publishesOf_vsync_cons, optPub] using h
              | some q => simp [optPub] at h
      | some b =>
          dsimp only
          have h := renderRows_publishes target inp.readoutReady
            (List.range kResolutionY) (some (b, s.nextCaptureTime))
          cases hout : (renderRows target inp.readoutReady (List.range kResolutionY)
              (some (b, s.nextCaptureTime))) with
          | mk evs pend =>
              rw [hout] at h
              cases pend with
              | none =>
                  simp only [optPub, List.append_nil] at h
                  simpa [publishesOf_vsync_cons, optPub] using h
              | some q =>
                  obtain ⟨q1, q2⟩ := q
                  simp only [optPub] at h
                  simpa [publishesOf_vsync_cons, publishesOf_append,
                    publishesOf_publish_cons, publishesOf, optPub] using h

theorem threadLoopStep_slot_pending (s : SensorState) (inp : IterInput) (b : ℕ)
    (hpend : s.nextCapturedBuffer = some b) :
    (threadLoopStep s inp).1.capturedBuffer = some b ∧
    (threadLoopStep s inp).1.captureTime = s.nextCaptureTime := by
  unfold threadLoopStep
  rw [hpend]
  cases hbuf : s.control.nextBuffer with
  | none =>
      dsimp only
      constructor <;> simp [publishesOf_vsync_cons, publishesOf_publish_cons, publishesOf]
  | some target =>
      dsimp only
      have h := renderRows_publishes target inp.readoutReady
        (List.range kResolutionY) (some (b, s.nextCaptureTime))
      cases hout : (renderRows target inp.readoutReady (List.range kResolutionY)
          (some (b, s.nextCaptureTime))) with
      | mk evs pend =>
          rw [hout] at h
          cases pend with
          | none =>
              simp only [optPub, List.append_nil] at h
              dsimp only
              constructor <;> simp [publishesOf_vsync_cons, h]
          | some q =>
              obtain ⟨q1, q2⟩ := q
              simp only [optPub] at h
              have hlen := congrArg List.length h
              simp only [List.length_append, List.length_cons, List.length_nil] at hlen
              have hnil : publishesOf evs = [] := by
                cases hp : publishesOf evs with
                | nil => rfl
                | cons x xs => rw [hp] at hlen; simp at hlen
              rw [hnil, List.nil_append] at h
              simp only [List.cons.injEq, Prod.mk.injEq] at h
              dsimp only
              constructor <;>
                simp [publishesOf_vsync_cons, publishesOf_append, publishesOf_publish_cons,
                  hnil, h.1.1, h.1.2, publishesOf]

theorem threadLoopStep_slot_unread (s : SensorState) (inp : IterInput)
    (hpend : s.nextCapturedBuffer = none) :
    (threadLoopStep s inp).1.capturedBuffer = s.capturedBuffer ∧
    (threadLoopStep s inp).1.captureTime = s.captureTime := by
  unfold threadLoopStep
  rw [hpend]
  cases hbuf : s.control.nextBuffer with
  | none =>
      dsimp only
      constructor <;> simp [publishesOf]
  | some target =>
      dsimp only
      have h := renderRows_publishes target inp.readoutReady (List.range kResolutionY) none
      cases hout : (renderRows target inp.readoutReady (List.range kResolutionY) none) with
      | mk evs pend =>
          rw [hout] at h
          cases pend with
          | none =>
              simp only [optPub, List.append_nil] at h
              dsimp only
              constructor <;> simp [publishesOf_vsync_cons, h]
          | some q => simp [optPub] at h

theorem threadLoopStep_tail_no_vsync (s : SensorState) (inp : IterInput) :
    Event.vsync ∉ (threadLoopStep s inp).2.tail := by
  unfold threadLoopStep
  cases hpend : s.nextCapturedBuffer with
  | none =>
      cases hbuf : s.control.nextBuffer with
      | none => simp
      | some target =>
          dsimp only
          have hnv := renderRows_no_vsync target inp.readoutReady (List.range kResolutionY) none
          cases hout : (renderRows target inp.readoutReady (List.range kResolutionY) none) with
          | mk evs pend =>
              rw [hout] at hnv
              cases pend with
              | none => simpa using hnv
              | some q =>
                  obtain ⟨q1, q2⟩ := q
                  simp only [List.tail_cons]
                  simpa using hnv
  | some b =>
      cases hbuf : s.control.nextBuffer with
      | none => simp
      | some target =>
          dsimp only
          have hnv := renderRows_no_vsync target inp.readoutReady (List.range kResolutionY)
            (some (b, s.nextCaptureTime))
          cases hout : (renderRows target inp.readoutReady (List.range kResolutionY)
              (some (b, s.nextCaptureTime))) with
          | mk evs pend =>
              rw [hout] at hnv
              cases pend with
              | none => simpa using hnv
              | some q =>
                  obtain ⟨q1, q2⟩ := q
                  simp only [List.tail_cons]
                  simpa using hnv

theorem threadLoopStep_head_vsync (s : SensorState) (inp : IterInput) :
    (threadLoopStep s inp).2.head? = some Event.vsync := by
  unfold threadLoopStep
  cases hpend : s.nextCapturedBuffer with
  | none =>
      cases hbuf : s.control.nextBuffer with
      | none => rfl
      | some target => rfl
  | some b =>
      cases hbuf : s.control.nextBuffer with
      | none => rfl
      | some target => rfl

theorem threadLoopStep_no_render_of_none (s : SensorState) (inp : IterInput)
    (h : s.control.nextBuffer = none) :
    ∀ b y, Event.renderRow b y ∉ (threadLoopStep s inp).2 := by
  intro b y
  unfold threadLoopStep
  rw [h]
  cases hpend : s.nextCapturedBuffer with
  | none => simp
  | some p => simp

theorem threadLoopStep_renders (s : SensorState) (inp : IterInput) (target : ℕ)
    (h : s.control.nextBuffer = some target) :
    ∀ y, y < kResolutionY → Event.renderRow target y ∈ (threadLoopStep s inp).2 := by
  intro y hy
  unfold threadLoopStep
  rw [h]
  cases hpend : s.nextCapturedBuffer with
  | none =>
      dsimp only
      have hc := renderRows_covers target inp.readoutReady (List.range kResolutionY) none y
        (List.mem_range.mpr hy)
      cases hout : (renderRows target inp.readoutReady (List.range kResolutionY) none) with
      | mk evs pend =>
          rw [hout] at hc
          cases pend with
          | none => exact List.mem_cons_of_mem _ hc
          | some q =>
              obtain ⟨q1, q2⟩ := q
              exact List.mem_cons_of_mem _ (List.mem_append_left _ hc)
  | some p =>
      dsimp only
      have hc := renderRows_covers target inp.readoutReady (List.range kResolutionY)
        (some (p, s.nextCaptureTime)) y (List.mem_range.mpr hy)
      cases hout : (renderRows target inp.readoutReady (List.range kResolutionY)
          (some (p, s.nextCaptureTime))) with
      | mk evs pend =>
          rw [hout] at hc
          cases pend with
          | none => exact List.mem_cons_of_mem _ hc
          | some q =>
              obtain ⟨q1, q2⟩ := q
              exact List.mem_cons_of_mem _ (List.mem_append_left _ hc)

theorem threadLoopStep_renders_target (s : SensorState) (inp : IterInput) (target : ℕ)
    (h : s.control.nextBuffer = some target) :
    ∀ b y, Event.renderRow b y ∈ (threadLoopStep s inp).2 → b = target := by
  intro b y hmem
  unfold threadLoopStep at hmem
  rw [h] at hmem
  revert hmem
  cases hpend : s.nextCapturedBuffer with
  | none =>
      dsimp only
      cases hout : (renderRows target inp.readoutReady (List.range kResolutionY) none) with
      | mk evs pend =>
          cases pend with
          | none =>
              intro hmem
              rcases List.mem_cons.1 hmem with h' | h'
              · exact Event.noConfusion h'
              · exact renderRows_target target inp.readoutReady (List.range kResolutionY)
                  none b y (by rw [hout]; exact h')
          | some q =>
              obtain ⟨q1, q2⟩ := q
              intro hmem
              rcases List.mem_cons.1 hmem with h' | h'
              · exact Event.noConfusion h'
              · rcases List.mem_append.1 h' with h'' | h''
                · exact renderRows_target target inp.readoutReady (List.range kResolutionY)
                    none b y (by rw [hout]; exact h'')
                · simp at h''
  | some p =>
      dsimp only
      cases hout : (renderRows target inp.readoutReady (List.range kResolutionY)
          (some (p, s.nextCaptureTime))) with
      | mk evs pend =>
          cases pend with
          | none =>
              intro hmem
              rcases List.mem_cons.1 hmem with h' | h'
              · exact Event.noConfusion h'
              · exact renderRows_target target inp.readoutReady (List.range kResolutionY)
                  (some (p, s.nextCaptureTime)) b y (by rw [hout]; exact h')
          | some q =>
              obtain ⟨q1, q2⟩ := q
              intro hmem
              rcases List.mem_cons.1 hmem with h' | h'
              · exact Event.noConfusion h'
              · rcases List.mem_append.1 h' with h'' | h''
                · exact renderRows_target target inp.readoutReady (List.range kResolutionY)
                    (some (p, s.nextCaptureTime)) b y (by rw [hout]; exact h'')
                · simp at h''

/-! ### Claim C1: pixel formula at electronCount 1500, gain 200 -/

/-- C1 counterexample: the claim states the pre-noise raw sample for
electronCount=1500, gain=200 equals `min(1500, 2000) * totalGain + blackLevel`
clamped to `kMaxRawValue = 4000`, i.e. 4000; the code instead clamps *before*
adding the black level and produces 5000. -/
theorem claim_C1_cex :
    preNoiseRaw 1500 200 = 5000 ∧
    min (min 1500 kSaturationElectrons * 4 + kBlackLevel) kMaxRawValue = 4000 ∧
    preNoiseRaw 1500 200 ≠
      min (min 1500 kSaturationElectrons * 4 + kBlackLevel) kMaxRawValue := by
  refine ⟨?_, by decide, ?_⟩ <;>
  · norm_num [preNoiseRaw, clampRaw, rawCount0, clampElectrons, totalGain, kBaseGainFactor,
      kMaxRawValue, kSaturationElectrons, kBlackLevel]
    decide

/-- C1 (amended): for electronCount=1500, saturationElectrons=2000,
gain=200 (so `totalGain = 2 * kBaseGainFactor = 4`), the raw sample before
the noise term is `min(1500, 2000) * totalGain` clamped to `kMaxRawValue`,
*plus* `kBlackLevel`: the saturation clamp applies before the black-level
offset is added, giving 5000. -/
theorem claim_C1 :
    totalGain 200 = 2 * kBaseGainFactor ∧
    preNoiseRaw 1500 200 = min (min 1500 kSaturationElectrons * 4) kMaxRawValue + kBlackLevel ∧
    preNoiseRaw 1500 200 = 5000 := by
  refine ⟨by norm_num [totalGain], ?_, ?_⟩ <;>
  · norm_num [preNoiseRaw, clampRaw, rawCount0, clampElectrons, totalGain, kBaseGainFactor,
      kMaxRawValue, kSaturationElectrons, kBlackLevel]
    decide

/-! ### Claim C4: saturation clamp for electron counts far above saturation -/

/-- C4 counterexample: for electronCount=1000000 (far above
saturationElectrons) at the default gain 100, the raw value before the noise
term is added is 5000, which is *larger* than the clamp value
`kMaxRawValue = 4000`: the black-level offset is added after the clamp. -/
theorem claim_C4_cex :
    preNoiseRaw 1000000 100 = 5000 ∧
    preNoiseRaw 1000000 100 ≠ kMaxRawValue ∧
    kMaxRawValue < preNoiseRaw 1000000 100 := by
  have h : preNoiseRaw 1000000 100 = 5000 := by
    norm_num [preNoiseRaw, clampRaw, rawCount0, clampElectrons, totalGain, kBaseGainFactor,
      kMaxRawValue, kSaturationElectrons, kBlackLevel]
    decide
  exact ⟨h, by rw [h]; decide, by rw [h]; decide⟩

/-- C4 (amended): for every electronCount at or above `kSaturationElectrons`
and every supported sensitivity, the value produced by the gain multiply and
the A/D saturation clamp — the raw value before the black-level offset and
the noise term — equals exactly `kMaxRawValue` (4000), never a larger value;
the subsequent black-level addition then makes the pre-noise sample
`kMaxRawValue + kBlackLevel = 5000`. -/
theorem claim_C4 (ec gain : ℕ) (hec : kSaturationElectrons ≤ ec)
    (hgain : gain ∈ kAvailableSensitivities) :
    clampRaw (rawCount0 ec gain) = kMaxRawValue ∧
    preNoiseRaw ec gain = kMaxRawValue + kBlackLevel := by
  have hce : clampElectrons ec = 2000 := by
    unfold clampElectrons kSaturationElectrons at *
    split <;> omega
  fin_cases hgain <;>
  · constructor <;>
    · norm_num [preNoiseRaw, clampRaw, rawCount0, totalGain, kBaseGainFactor,
        kMaxRawValue, kSaturationElectrons, kBlackLevel, hce]
      decide

/-- C4 witness: the amended theorem applied at electronCount 1000000 and
gain 400. -/
theorem claim_C4_witness :
    kSaturationElectrons ≤ 1000000 ∧ 400 ∈ kAvailableSensitivities ∧
    (clampRaw (rawCount0 1000000 400) = kMaxRawValue ∧
     preNoiseRaw 1000000 400 = kMaxRawValue + kBlackLevel) :=
  ⟨by decide, by decide, claim_C4 1000000 400 (by decide) (by decide)⟩

/-! ### Claim C10: unvalidated sensitivity and uint16 wraparound -/

/-- C10: `setSensitivity` stores any 32-bit gain with no validation against
the five supported sensitivities, and at the accepted gain 3300 a saturated
pixel (electron count clamped to `kSaturationElectrons = 2000`) yields
`2000 * totalGain = 132000`, which wraps as `uint16_t` to `132000 % 65536 =
928 < kMaxRawValue`, so the A/D saturation clamp leaves it at 928 instead of
bounding the pre-noise value at `kMaxRawValue`: the pre-noise sample is
`928 + kBlackLevel = 1928`, not `kMaxRawValue + kBlackLevel`. -/
theorem claim_C10 :
    (∀ c g, (setSensitivity c g).gainFactor = g) ∧
    (⌊(clampElectrons 2000000 : ℚ) * totalGain 3300⌋ = 132000) ∧
    rawCount0 2000000 3300 = 928 ∧
    clampRaw (rawCount0 2000000 3300) = 928 ∧
    preNoiseRaw 2000000 3300 = 1928 ∧
    preNoiseRaw 2000000 3300 < kMaxRawValue + kBlackLevel := by
  have h1 : (⌊(clampElectrons 2000000 : ℚ) * totalGain 3300⌋ = (132000 : ℤ)) := by
    norm_num [clampElectrons, totalGain, kBaseGainFactor, kMaxRawValue, kSaturationElectrons]
  have h2 : rawCount0 2000000 3300 = 928 := by
    rw [rawCount0, h1]; decide
  refine ⟨fun c g => rfl, h1, h2, ?_, ?_, ?_⟩
  · rw [h2]; decide
  · rw [preNoiseRaw, h2]; decide
  · rw [preNoiseRaw, h2]; decide

/-! ### Claim C2: the simulated capture timeline -/

/-- C2 counterexample: the claim states the capture timestamp advances by
exactly one fixed frame period (row-readout time x row count + vertical
blank = 69441*480 + 10000 = 33341680 ns) per iteration independent of real
elapsed time.  In the code the timestamp is recomputed from the wall clock
each iteration, so two iterations whose start times are 1 second apart
produce capture timestamps exactly 1 second apart — not one frame period. -/
theorem claim_C2_cex :
    ((threadLoopStep (threadLoopStep (readyToRun initialControl 0)
          ⟨0, fun _ => false⟩).1 ⟨1000000000, fun _ => false⟩).1.nextCaptureTime
        - (threadLoopStep (readyToRun initialControl 0)
          ⟨0, fun _ => false⟩).1.nextCaptureTime)
      = 1000000000 ∧
    kRowReadoutTime * (kResolutionY : ℤ) + kMinVerticalBlank = 33341680 ∧
    ((threadLoopStep (threadLoopStep (readyToRun initialControl 0)
          ⟨0, fun _ => false⟩).1 ⟨1000000000, fun _ => false⟩).1.nextCaptureTime
        - (threadLoopStep (readyToRun initialControl 0)
          ⟨0, fun _ => false⟩).1.nextCaptureTime)
      ≠ kRowReadoutTime * (kResolutionY : ℤ) + kMinVerticalBlank := by
  rw [threadLoopStep_nextCaptureTime, threadLoopStep_nextCaptureTime,
    threadLoopStep_startupTime]
  norm_num [readyToRun, kRowReadoutTime, kResolutionY, kFrameDurationMin, kMinVerticalBlank]

/-- C2 (amended): the capture timestamp assigned to the frame latched in an
iteration equals (wall-clock iteration start − startup time) + one row
readout time + the minimum vertical blank; it is recomputed from the real
clock each iteration, so consecutive timestamps differ by exactly the real
time elapsed between the two iteration starts (hence are monotonically
non-decreasing whenever the real clock is), not by a fixed frame period. -/
theorem claim_C2 (s : SensorState) (inp inp' : IterInput)
    (hclock : inp.startRealTime ≤ inp'.startRealTime) :
    (threadLoopStep s inp).1.nextCaptureTime
        = inp.startRealTime - s.startupTime + kRowReadoutTime + kMinVerticalBlank ∧
    (threadLoopStep (threadLoopStep s inp).1 inp').1.nextCaptureTime
        - (threadLoopStep s inp).1.nextCaptureTime
      = inp'.startRealTime - inp.startRealTime ∧
    (threadLoopStep s inp).1.nextCaptureTime
        ≤ (threadLoopStep (threadLoopStep s inp).1 inp').1.nextCaptureTime := by
  refine ⟨threadLoopStep_nextCaptureTime s inp, ?_, ?_⟩ <;>
  · rw [threadLoopStep_nextCaptureTime, threadLoopStep_nextCaptureTime,
      threadLoopStep_startupTime]
    omega

/-- C2 witness: the amended theorem applied to two iterations started at
wall-clock times 0 and 40000000 ns. -/
theorem claim_C2_witness :
    (threadLoopStep (readyToRun initialControl 0) ⟨0, fun _ => false⟩).1.nextCaptureTime
        = 0 - 0 + kRowReadoutTime + kMinVerticalBlank ∧
    (threadLoopStep (threadLoopStep (readyToRun initialControl 0)
          ⟨0, fun _ => false⟩).1 ⟨40000000, fun _ => false⟩).1.nextCaptureTime
        - (threadLoopStep (readyToRun initialControl 0)
          ⟨0, fun _ => false⟩).1.nextCaptureTime
      = 40000000 - 0 ∧
    (threadLoopStep (readyToRun initialControl 0) ⟨0, fun _ => false⟩).1.nextCaptureTime
        ≤ (threadLoopStep (threadLoopStep (readyToRun initialControl 0)
          ⟨0, fun _ => false⟩).1 ⟨40000000, fun _ => false⟩).1.nextCaptureTime :=
  claim_C2 (readyToRun initialControl 0) ⟨0, fun _ => false⟩ ⟨40000000, fun _ => false⟩
    (by norm_num)

/-! ### Claim C5: one-frame pipeline delay -/

/-- C5: a destination buffer latched in iteration N is the render target of
iteration N (all rows of iteration N are rendered into it and into no other
buffer), it is not published during iteration N (provided it is not aliased
with the buffer already pending from iteration N−1), and it is the unique
frame published during iteration N+1, carrying the capture time assigned in
iteration N, after which it sits in the handoff slot as the completed
buffer. -/
theorem claim_C5 (s : SensorState) (inp inp' : IterInput) (b : ℕ)
    (hlatch : s.control.nextBuffer = some b)
    (hnoalias : s.nextCapturedBuffer ≠ some b) :
    (∀ y, y < kResolutionY → Event.renderRow b y ∈ (threadLoopStep s inp).2) ∧
    (∀ b' y, Event.renderRow b' y ∈ (threadLoopStep s inp).2 → b' = b) ∧
    (∀ t, Event.publish b t ∉ (threadLoopStep s inp).2) ∧
    publishesOf (threadLoopStep (threadLoopStep s inp).1 inp').2
      = [(b, (threadLoopStep s inp).1.nextCaptureTime)] ∧
    (threadLoopStep (threadLoopStep s inp).1 inp').1.capturedBuffer = some b := by
  refine ⟨threadLoopStep_renders s inp b hlatch,
    threadLoopStep_renders_target s inp b hlatch, ?_, ?_, ?_⟩
  · intro t hmem
    have hp := publish_mem_publishesOf hmem
    rw [threadLoopStep_publishes] at hp
    cases hpend : s.nextCapturedBuffer with
    | none => rw [hpend] at hp; simp [optPub] at hp
    | some b0 =>
        rw [hpend] at hp
        simp [optPub] at hp
        exact hnoalias (by rw [hpend, hp.1])
  · have h1 : (threadLoopStep s inp).1.nextCapturedBuffer = some b := by
      rw [threadLoopStep_nextCapturedBuffer, hlatch]
    rw [threadLoopStep_publishes, h1]
    rfl
  · have h1 : (threadLoopStep s inp).1.nextCapturedBuffer = some b := by
      rw [threadLoopStep_nextCapturedBuffer, hlatch]
    exact (threadLoopStep_slot_pending (threadLoopStep s inp).1 inp' b h1).1

/-- C5 witness: the theorem applied to a state whose control surface holds
buffer 42 and whose pipeline is empty, over two concrete iterations. -/
theorem claim_C5_witness :
    Event.renderRow 42 0 ∈
      (threadLoopStep
        { readyToRun initialControl 0 with control := setDestinationBuffer initialControl 42 640 }
        ⟨0, fun _ => false⟩).2 ∧
    publishesOf (threadLoopStep
        (threadLoopStep
          { readyToRun initialControl 0 with
            control := setDestinationBuffer initialControl 42 640 }
          ⟨0, fun _ => false⟩).1 ⟨33331760, fun _ => false⟩).2
      = [(42, (threadLoopStep
          { readyToRun initialControl 0 with
            control := setDestinationBuffer initialControl 42 640 }
          ⟨0, fun _ => false⟩).1.nextCaptureTime)] :=
  ⟨(claim_C5 { readyToRun initialControl 0 with
        control := setDestinationBuffer initialControl 42 640 }
      ⟨0, fun _ => false⟩ ⟨33331760, fun _ => false⟩ 42 rfl (by simp [readyToRun])).1 0
      (by norm_num [kResolutionY]),
   (claim_C5 { readyToRun initialControl 0 with
        control := setDestinationBuffer initialControl 42 640 }
      ⟨0, fun _ => false⟩ ⟨33331760, fun _ => false⟩ 42 rfl (by simp [readyToRun])).2.2.2.1⟩

/-! ### Claim C6: single-slot overwrite-on-unread handoff -/

/-- C6: the handoff slot holds at most one unconsumed frame: a publish
overwrites the slot unconditionally (publishing twice leaves only the
second frame, and a later `waitForNewFrame` observes only the newer frame's
capture time), a successful `waitForNewFrame` destructively clears the
slot, and a loop iteration with a pending completed frame overwrites
whatever unconsumed frame the slot held. -/
theorem claim_C6 :
    (∀ slot b1 t1 b2 t2, publishFrame (publishFrame slot b1 t1) b2 t2 = some (b2, t2)) ∧
    (∀ b t res sa, waitForNewFrame (some (b, t)) res sa = (true, some t, none)) ∧
    (∀ b1 t1 b2 t2 res sa,
        waitForNewFrame (publishFrame (publishFrame none b1 t1) b2 t2) res sa
          = (true, some t2, none)) ∧
    (∀ s inp b, s.nextCapturedBuffer = some b →
        (threadLoopStep s inp).1.capturedBuffer = some b ∧
        (threadLoopStep s inp).1.captureTime = s.nextCaptureTime) :=
  ⟨fun _ _ _ _ _ => rfl, fun _ _ _ _ => rfl, fun _ _ _ _ _ _ => rfl,
   fun s inp b h => threadLoopStep_slot_pending s inp b h⟩

/-- C6 witness: two publishes followed by a consume observe only the second
frame, and a concrete loop iteration with pending buffer 5 overwrites the
slot (which held buffer 9) with buffer 5. -/
theorem claim_C6_witness :
    waitForNewFrame (publishFrame (publishFrame none 1 10) 2 20) WaitStatus.ok none
      = (true, some 20, none) ∧
    ((threadLoopStep
        { readyToRun initialControl 0 with
            nextCapturedBuffer := some 5, nextCaptureTime := 77, capturedBuffer := some 9 }
        ⟨0, fun _ => false⟩).1.capturedBuffer = some 5 ∧
     (threadLoopStep
        { readyToRun initialControl 0 with
            nextCapturedBuffer := some 5, nextCaptureTime := 77, capturedBuffer := some 9 }
        ⟨0, fun _ => false⟩).1.captureTime = 77) :=
  ⟨claim_C6.2.2.1 1 10 2 20 WaitStatus.ok none,
   claim_C6.2.2.2
     { readyToRun initialControl 0 with
         nextCapturedBuffer := some 5, nextCaptureTime := 77, capturedBuffer := some 9 }
     ⟨0, fun _ => false⟩ 5 rfl⟩

/-! ### Claim C7: wait-call return conventions -/

/-- C7: `waitForVSync` and `waitForNewFrame` return false on a timeout and
on any internal wait error (an error status is mapped to a failed result,
never escalated), and return true only with a valid payload: a true
`waitForVSync` means the VSync flag was set, and a true `waitForNewFrame`
delivers the capture time of the frame found in the handoff slot. -/
theorem claim_C7 :
    (waitForVSync WaitStatus.timedOut false = false) ∧
    (∀ code g, waitForVSync (WaitStatus.err code) g = false) ∧
    (∀ res g, waitForVSync res g = true → g = true) ∧
    (∀ sa, waitForNewFrame none WaitStatus.timedOut sa = (false, none, sa)) ∧
    (∀ code sa, waitForNewFrame none (WaitStatus.err code) sa = (false, none, sa)) ∧
    (∀ slot res sa, (waitForNewFrame slot res sa).1 = true →
        ∃ b t, (waitForNewFrame slot res sa).2.1 = some t ∧
          (slot = some (b, t) ∨
            (slot = none ∧ res = WaitStatus.ok ∧ sa = some (b, t)))) := by
  refine ⟨rfl, fun _ _ => rfl, ?_, fun _ => rfl, fun _ _ => rfl, ?_⟩
  · intro res g h
    cases res <;> simp_all [waitForVSync]
  · intro slot res sa h
    rcases slot with _ | ⟨b, t⟩
    · rcases res with _ | _ | code
      · rcases sa with _ | ⟨b', t'⟩
        · simp [waitForNewFrame] at h
        · exact ⟨b', t', rfl, Or.inr ⟨rfl, rfl, rfl⟩⟩
      · simp [waitForNewFrame] at h
      · simp [waitForNewFrame] at h
    · exact ⟨b, t, rfl, Or.inl rfl⟩

/-- C7 witness: concrete instances — an error status yields false, a timeout
yields false, and a successful call on a filled slot delivers that frame's
capture time. -/
theorem claim_C7_witness :
    waitForVSync (WaitStatus.err 22) true = false ∧
    waitForNewFrame none WaitStatus.timedOut none = (false, none, none) ∧
    (∃ b t, (waitForNewFrame (some (3, 30)) WaitStatus.ok none).2.1 = some t ∧
      ((some (3, 30) : Option (ℕ × ℤ)) = some (b, t) ∨
        ((some (3, 30) : Option (ℕ × ℤ)) = none ∧ WaitStatus.ok = WaitStatus.ok ∧
          (none : Option (ℕ × ℤ)) = some (b, t)))) :=
  ⟨claim_C7.2.1 22 true, claim_C7.2.2.2.1 none,
   claim_C7.2.2.2.2.2 (some (3, 30)) WaitStatus.ok none rfl⟩

/-! ### Claim C8: wall-clock pacing -/

/-- C8: in the pacing stage a sleep occurs if and only if the work finished
earlier than the frame-end deadline minus the 2 ms tolerance; when it
occurs the sleep runs exactly until the deadline, and when the computation
meets or exceeds the configured frame duration no sleep occurs at all. -/
theorem claim_C8 (start frameDur workDone : ℤ) :
    (pacingSleep workDone (start + frameDur) ≠ 0 ↔
       workDone < start + frameDur - kTimeAccuracy) ∧
    (workDone < start + frameDur - kTimeAccuracy →
       workDone + pacingSleep workDone (start + frameDur) = start + frameDur) ∧
    (start + frameDur ≤ workDone → pacingSleep workDone (start + frameDur) = 0) := by
  refine ⟨?_, ?_, ?_⟩ <;>
  · unfold pacingSleep kTimeAccuracy
    split <;> omega

/-- C8 witness: with a frame duration of 33331760 ns and work done at 1 ms,
the loop sleeps exactly until the deadline. -/
theorem claim_C8_witness :
    (1000000 : ℤ) < 0 + 33331760 - kTimeAccuracy ∧
    1000000 + pacingSleep 1000000 (0 + 33331760) = 0 + 33331760 :=
  ⟨by norm_num [kTimeAccuracy],
   (claim_C8 0 33331760 1000000).2.1 (by norm_num [kTimeAccuracy])⟩

/-! ### Claim C9: VSync once per iteration, before any rendering -/

/-- C9: every iteration's event trace starts with exactly one VSync signal
(it is the head of the trace and occurs nowhere else, hence precedes every
rendered pixel), and when no destination buffer is available the render
stage is skipped (no row is rendered) while the iteration still completes
with its VSync signalled. -/
theorem claim_C9 (s : SensorState) (inp : IterInput) :
    (threadLoopStep s inp).2.head? = some Event.vsync ∧
    Event.vsync ∉ (threadLoopStep s inp).2.tail ∧
    (s.control.nextBuffer = none →
      ∀ b y, Event.renderRow b y ∉ (threadLoopStep s inp).2) :=
  ⟨threadLoopStep_head_vsync s inp, threadLoopStep_tail_no_vsync s inp,
   fun h => threadLoopStep_no_render_of_none s inp h⟩

/-- C9 witness: the theorem applied to the freshly started sensor (which has
no destination buffer), with the null-buffer hypothesis discharged. -/
theorem claim_C9_witness :
    (threadLoopStep (readyToRun initialControl 0) ⟨5, fun _ => true⟩).2.head?
      = some Event.vsync ∧
    Event.renderRow 7 0 ∉ (threadLoopStep (readyToRun initialControl 0) ⟨5, fun _ => true⟩).2 :=
  ⟨(claim_C9 (readyToRun initialControl 0) ⟨5, fun _ => true⟩).1,
   (claim_C9 (readyToRun initialControl 0) ⟨5, fun _ => true⟩).2.2 rfl 7 0⟩

/-! ### Claim C3: accuracy of the bit-pattern square-root approximation

The rational core: for each parity of the biased exponent and each side of
the mantissa carry threshold, the squared relative position of the
approximation reduces to a single quadratic inequality in the halved
mantissa, settled by `nlinarith` with an explicit convexity or
sum-of-squares certificate.  The exponent scale `2^k` cancels throughout. -/

theorem sqrtBits_even (k M : ℕ) :
    sqrtBits (floatBits (2 * k) M) = (k + 63) * 2 ^ 23 + (M / 2 + 3883008) := by
  unfold sqrtBits floatBits
  omega

theorem sqrtf_approx_even (k M : ℕ) (hM : M < 2 ^ 23) :
    sqrtf_approx (2 * k) M = floatValQ (k + 63) (M / 2 + 3883008) := by
  unfold sqrtf_approx
  rw [sqrtBits_even k M]
  have h1 : bitsExp ((k + 63) * 2 ^ 23 + (M / 2 + 3883008)) = k + 63 := by
    unfold bitsExp; omega
  have h2 : bitsMant ((k + 63) * 2 ^ 23 + (M / 2 + 3883008)) = M / 2 + 3883008 := by
    unfold bitsMant; omega
  rw [h1, h2]

theorem sqrtBits_odd (k M : ℕ) :
    sqrtBits (floatBits (2 * k + 1) M) = (k + 63) * 2 ^ 23 + (M / 2 + 8077312) := by
  unfold sqrtBits floatBits
  omega

theorem sqrtf_approx_odd_nc (k M : ℕ) (hM : M < 2 ^ 23) (hnc : M / 2 < 311296) :
    sqrtf_approx (2 * k + 1) M = floatValQ (k + 63) (M / 2 + 8077312) := by
  unfold sqrtf_approx
  rw [sqrtBits_odd k M]
  have h1 : bitsExp ((k + 63) * 2 ^ 23 + (M / 2 + 8077312)) = k + 63 := by
    unfold bitsExp; omega
  have h2 : bitsMant ((k + 63) * 2 ^ 23 + (M / 2 + 8077312)) = M / 2 + 8077312 := by
    unfold bitsMant; omega
  rw [h1, h2]

theorem sqrtf_approx_odd_c (k M : ℕ) (hM : M < 2 ^ 23) (hc : 311296 ≤ M / 2) :
    sqrtf_approx (2 * k + 1) M = floatValQ (k + 64) (M / 2 - 311296) := by
  unfold sqrtf_approx
  rw [sqrtBits_odd k M]
  have h1 : bitsExp ((k + 63) * 2 ^ 23 + (M / 2 + 8077312)) = k + 64 := by
    unfold bitsExp; omega
  have h2 : bitsMant ((k + 63) * 2 ^ 23 + (M / 2 + 8077312)) = M / 2 - 311296 := by
    unfold bitsMant; omega
  rw [h1, h2]

theorem floatValQ_pos (E M : ℕ) : 0 < floatValQ E M := by
  unfold floatValQ; positivity

theorem sqrtf_approx_pos (E M : ℕ) : 0 < sqrtf_approx E M := floatValQ_pos _ _

theorem scaled_le_sq (X A B c : ℚ) (hX : 0 ≤ X * X)
    (h : c * B * 2 ^ 300 ≤ A ^ 2 * 2 ^ 150) :
    c * (X * X * B / 2 ^ 150) ≤ (X * A / 2 ^ 150) ^ 2 := by
  have h' : c * B / 2 ^ 150 ≤ A ^ 2 / 2 ^ 300 := by
    rw [div_le_div_iff₀ (by norm_num) (by norm_num)]
    linarith
  calc c * (X * X * B / 2 ^ 150) = (X * X) * (c * B / 2 ^ 150) := by ring
    _ ≤ (X * X) * (A ^ 2 / 2 ^ 300) := mul_le_mul_of_nonneg_left h' hX
    _ = (X * A / 2 ^ 150) ^ 2 := by ring

theorem sq_le_scaled (X A B c : ℚ) (hX : 0 ≤ X * X)
    (h : A ^ 2 * 2 ^ 150 ≤ c * B * 2 ^ 300) :
    (X * A / 2 ^ 150) ^ 2 ≤ c * (X * X * B / 2 ^ 150) := by
  have h' : A ^ 2 / 2 ^ 300 ≤ c * B / 2 ^ 150 := by
    rw [div_le_div_iff₀ (by norm_num) (by norm_num)]
    linarith
  calc (X * A / 2 ^ 150) ^ 2 = (X * X) * (A ^ 2 / 2 ^ 300) := by ring
    _ ≤ (X * X) * (c * B / 2 ^ 150) := mul_le_mul_of_nonneg_left h' hX
    _ = c * (X * X * B / 2 ^ 150) := by ring

theorem sqrtApprox_even_up (q r : ℚ) (hq0 : 0 ≤ q) (hq : q ≤ 4194303) (hr0 : 0 ≤ r) :
    62500 * (12271616 + q)^2 ≤ 67081 * 2^24 * (8388608 + 2*q + r) := by
  nlinarith [mul_nonneg hq0 (by linarith : (0:ℚ) ≤ 4194303 - q)]

theorem sqrtApprox_even_lo (q r : ℚ) (hr : r ≤ 1) :
    58081 * 2^24 * (8388608 + 2*q + r) ≤ 62500 * (12271616 + q)^2 := by
  nlinarith [sq_nonneg (62500 * (12271616 + q) - 58081 * 2^24)]

theorem bounds_even (k q r : ℕ) (hq : q ≤ 4194303) (hr : r ≤ 1) :
    (241/250 : ℚ)^2 * floatValQ (2*k) (2*q+r) ≤ (floatValQ (k+63) (q+3883008))^2 ∧
    (floatValQ (k+63) (q+3883008))^2 ≤ (259/250 : ℚ)^2 * floatValQ (2*k) (2*q+r) := by
  have e1 : floatValQ (2*k) (2*q+r)
      = ((2:ℚ)^k * 2^k * (2^23 + (2*(q:ℚ)+r)) / 2^150) := by
    unfold floatValQ
    rw [two_mul, pow_add]
    push_cast
    ring
  have e2 : floatValQ (k+63) (q+3883008)
      = ((2:ℚ)^k * (2^63 * (12271616 + (q:ℚ))) / 2^150) := by
    unfold floatValQ
    rw [pow_add]
    push_cast
    ring
  rw [e1, e2]
  constructor
  · apply scaled_le_sq _ _ _ _ (by positivity)
    have key := sqrtApprox_even_lo (q:ℚ) (r:ℚ) (by exact_mod_cast hr)
    ring_nf
    ring_nf at key
    linarith
  · apply sq_le_scaled _ _ _ _ (by positivity)
    have key := sqrtApprox_even_up (q:ℚ) (r:ℚ) (by positivity) (by exact_mod_cast hq)
      (by positivity)
    ring_nf
    ring_nf at key
    linarith

theorem sqrtApprox_oddnc_up (q r : ℚ) (hq0 : 0 ≤ q) (hq : q ≤ 311295) (hr0 : 0 ≤ r) :
    62500 * (16465920 + q)^2 ≤ 67081 * 2^25 * (8388608 + 2*q + r) := by
  nlinarith [mul_nonneg hq0 (by linarith : (0:ℚ) ≤ 311295 - q)]

theorem sqrtApprox_oddnc_lo (q r : ℚ) (hq : q ≤ 311295) (hr : r ≤ 1) :
    58081 * 2^25 * (8388608 + 2*q + r) ≤ 62500 * (16465920 + q)^2 := by
  nlinarith [sq_nonneg (q - 311295), hq, hr]

theorem sqrtApprox_oddc_up (q r : ℚ) (hq1 : 311296 ≤ q) (hq : q ≤ 4194303) (hr0 : 0 ≤ r) :
    62500 * (8077312 + q)^2 ≤ 67081 * 2^23 * (8388608 + 2*q + r) := by
  nlinarith [mul_nonneg (by linarith : (0:ℚ) ≤ q - 311296) (by linarith : (0:ℚ) ≤ 4194303 - q)]

theorem sqrtApprox_oddc_lo (q r : ℚ) (hq1 : 311296 ≤ q) (hr : r ≤ 1) :
    58081 * 2^23 * (8388608 + 2*q + r) ≤ 62500 * (8077312 + q)^2 := by
  nlinarith [sq_nonneg (q - 311296), hq1, hr]

theorem bounds_odd_nc (k q r : ℕ) (hq : q ≤ 311295) (hr : r ≤ 1) :
    (241/250 : ℚ)^2 * floatValQ (2*k+1) (2*q+r) ≤ (floatValQ (k+63) (q+8077312))^2 ∧
    (floatValQ (k+63) (q+8077312))^2 ≤ (259/250 : ℚ)^2 * floatValQ (2*k+1) (2*q+r) := by
  have e1 : floatValQ (2*k+1) (2*q+r)
      = ((2:ℚ)^k * 2^k * (2 * (2^23 + (2*(q:ℚ)+r))) / 2^150) := by
    unfold floatValQ
    rw [pow_succ, two_mul, pow_add]
    push_cast
    ring
  have e2 : floatValQ (k+63) (q+8077312)
      = ((2:ℚ)^k * (2^63 * (16465920 + (q:ℚ))) / 2^150) := by
    unfold floatValQ
    rw [pow_add]
    push_cast
    ring
  rw [e1, e2]
  constructor
  · apply scaled_le_sq _ _ _ _ (by positivity)
    have key := sqrtApprox_oddnc_lo (q:ℚ) (r:ℚ) (by exact_mod_cast hq) (by exact_mod_cast hr)
    ring_nf
    ring_nf at key
    linarith
  · apply sq_le_scaled _ _ _ _ (by positivity)
    have key := sqrtApprox_oddnc_up (q:ℚ) (r:ℚ) (by positivity) (by exact_mod_cast hq)
      (by positivity)
    ring_nf
    ring_nf at key
    linarith

theorem bounds_odd_c (k q r : ℕ) (hq1 : 311296 ≤ q) (hq : q ≤ 4194303) (hr : r ≤ 1) :
    (241/250 : ℚ)^2 * floatValQ (2*k+1) (2*q+r) ≤ (floatValQ (k+64) (q-311296))^2 ∧
    (floatValQ (k+64) (q-311296))^2 ≤ (259/250 : ℚ)^2 * floatValQ (2*k+1) (2*q+r) := by
  have e1 : floatValQ (2*k+1) (2*q+r)
      = ((2:ℚ)^k * 2^k * (2 * (2^23 + (2*(q:ℚ)+r))) / 2^150) := by
    unfold floatValQ
    rw [pow_succ, two_mul, pow_add]
    push_cast
    ring
  have e2 : floatValQ (k+64) (q-311296)
      = ((2:ℚ)^k * (2^64 * (8077312 + (q:ℚ))) / 2^150) := by
    unfold floatValQ
    rw [pow_add]
    push_cast [Nat.cast_sub hq1]
    ring
  rw [e1, e2]
  constructor
  · apply scaled_le_sq _ _ _ _ (by positivity)
    have key := sqrtApprox_oddc_lo (q:ℚ) (r:ℚ) (by exact_mod_cast hq1) (by exact_mod_cast hr)
    ring_nf
    ring_nf at key
    linarith
  · apply sq_le_scaled _ _ _ _ (by positivity)
    have key := sqrtApprox_oddc_up (q:ℚ) (r:ℚ) (by exact_mod_cast hq1) (by exact_mod_cast hq)
      (by positivity)
    ring_nf
    ring_nf at key
    linarith

theorem sqrtf_approx_sq_bounds (E M : ℕ) (hM : M < 2 ^ 23) :
    (241/250 : ℚ)^2 * floatValQ E M ≤ (sqrtf_approx E M)^2 ∧
    (sqrtf_approx E M)^2 ≤ (259/250 : ℚ)^2 * floatValQ E M := by
  have hM2 : M = 2 * (M/2) + M % 2 := by omega
  have hr1 : M % 2 ≤ 1 := by omega
  have hq4 : M / 2 ≤ 4194303 := by omega
  rcases Nat.even_or_odd E with hE | hE
  · obtain ⟨k, hk⟩ := hE
    have hk2 : E = 2 * k := by omega
    subst hk2
    rw [sqrtf_approx_even k M hM,
      show floatValQ (2*k) M = floatValQ (2*k) (2*(M/2) + M%2) by rw [← hM2],
      show M / 2 + 3883008 = (M/2) + 3883008 from rfl]
    exact bounds_even k (M/2) (M%2) hq4 hr1
  · obtain ⟨k, hk⟩ := hE
    subst hk
    by_cases hnc : M / 2 < 311296
    · rw [sqrtf_approx_odd_nc k M hM hnc,
        show floatValQ (2*k+1) M = floatValQ (2*k+1) (2*(M/2) + M%2) by rw [← hM2]]
      exact bounds_odd_nc k (M/2) (M%2) (by omega) hr1
    · rw [sqrtf_approx_odd_c k M hM (by omega),
        show floatValQ (2*k+1) M = floatValQ (2*k+1) (2*(M/2) + M%2) by rw [← hM2]]
      exact bounds_odd_c k (M/2) (M%2) (by omega) hq4 hr1

/-- C3: for every positive normal single-precision float — biased exponent
`E ∈ [1, 254]`, mantissa `M < 2^23` — the approximate square root computed
by the bit-pattern manipulation of `sqrtf_approx` (shift the bit pattern
right by one and add the bias constant `0x1FBB4000`) satisfies
`|approxSqrt(r) - sqrt(r)| / sqrt(r) ≤ 0.036`. -/
theorem claim_C3 (E M : ℕ) (hE1 : 1 ≤ E) (hE2 : E ≤ 254) (hM : M < 2 ^ 23) :
    |(sqrtf_approx E M : ℝ) - Real.sqrt (floatValQ E M)| / Real.sqrt (floatValQ E M)
      ≤ 0.036 := by
  have hbounds := sqrtf_approx_sq_bounds E M hM
  have hv0 : (0:ℝ) < ((floatValQ E M : ℚ) : ℝ) := by
    exact_mod_cast floatValQ_pos E M
  have ha0 : (0:ℝ) < ((sqrtf_approx E M : ℚ) : ℝ) := by
    exact_mod_cast sqrtf_approx_pos E M
  have hlo : (241/250 : ℝ)^2 * ((floatValQ E M : ℚ) : ℝ)
      ≤ ((sqrtf_approx E M : ℚ) : ℝ)^2 := by
    have h0 : ((((241:ℚ)/250)^2 * floatValQ E M : ℚ) : ℝ)
        ≤ (((sqrtf_approx E M)^2 : ℚ) : ℝ) := Rat.cast_le.2 hbounds.1
    push_cast at h0
    exact h0
  have hup : ((sqrtf_approx E M : ℚ) : ℝ)^2
      ≤ (259/250 : ℝ)^2 * ((floatValQ E M : ℚ) : ℝ) := by
    have h0 : (((sqrtf_approx E M)^2 : ℚ) : ℝ)
        ≤ ((((259:ℚ)/250)^2 * floatValQ E M : ℚ) : ℝ) := Rat.cast_le.2 hbounds.2
    push_cast at h0
    exact h0
  have hs0 : 0 < Real.sqrt (floatValQ E M) := Real.sqrt_pos.2 hv0
  have h1 : ((sqrtf_approx E M : ℚ) : ℝ) ≤ 259/250 * Real.sqrt (floatValQ E M) := by
    have e : ((sqrtf_approx E M : ℚ) : ℝ)
        = Real.sqrt (((sqrtf_approx E M : ℚ) : ℝ)^2) := (Real.sqrt_sq ha0.le).symm
    rw [e]
    calc Real.sqrt (((sqrtf_approx E M : ℚ) : ℝ)^2)
        ≤ Real.sqrt ((259/250)^2 * ((floatValQ E M : ℚ) : ℝ)) := Real.sqrt_le_sqrt hup
      _ = 259/250 * Real.sqrt (floatValQ E M) := by
          rw [Real.sqrt_mul (by positivity), Real.sqrt_sq (by norm_num)]
  have h2 : 241/250 * Real.sqrt (floatValQ E M) ≤ ((sqrtf_approx E M : ℚ) : ℝ) := by
    have e : (241/250:ℝ) * Real.sqrt (floatValQ E M)
        = Real.sqrt ((241/250)^2 * ((floatValQ E M : ℚ) : ℝ)) := by
      rw [Real.sqrt_mul (by positivity), Real.sqrt_sq (by norm_num)]
    rw [e]
    calc Real.sqrt ((241/250)^2 * ((floatValQ E M : ℚ) : ℝ))
        ≤ Real.sqrt (((sqrtf_approx E M : ℚ) : ℝ)^2) := Real.sqrt_le_sqrt hlo
      _ = ((sqrtf_approx E M : ℚ) : ℝ) := Real.sqrt_sq ha0.le
  rw [div_le_iff₀ hs0, abs_sub_le_iff]
  constructor <;> nlinarith [h1, h2, hs0]


/-- C3 witness: the bound applied at r = 1.0 (biased exponent 127,
mantissa 0). -/
theorem claim_C3_witness :
    (1:ℕ) ≤ 127 ∧ (127:ℕ) ≤ 254 ∧ (0:ℕ) < 2 ^ 23 ∧
    |(sqrtf_approx 127 0 : ℝ) - Real.sqrt (floatValQ 127 0)| / Real.sqrt (floatValQ 127 0)
      ≤ 0.036 :=
  ⟨by norm_num, by norm_num, by norm_num,
   claim_C3 127 0 (by norm_num) (by norm_num) (by norm_num)⟩

end Sensor
